import Mathlib

set_option maxRecDepth 8000

/-!
Shallow embedding of the prompt-composition and generation-history core of
`app.py` (role-based creative chatbot + image studio).

The embedded fragment covers:
* the style-hint and role-instruction tables and `style_prompt` (app.py 87-111);
* the negative-prompt suffix producing the final prompt (app.py 193-195);
* the `GenParams` / `GenResult` value objects (app.py 57-72);
* the session history list, inserted at the head (app.py 74-75, 222, 228-229);
* the submit handler's guard/seed/try-except flow (app.py 172-225), with the
  external OpenAI client and `images.generate` call modelled as an oracle.
-/

set_option autoImplicit false

namespace RoleChat

/-- Whitespace characters removed by Python `str.strip()` (ASCII subset). -/
def pyIsSpace (c : Char) : Bool :=
  c == ' ' || c == '\t' || c == '\n' || c == '\r' || c == '\x0b' || c == '\x0c'

/-- Python `s.strip()`: remove leading and trailing whitespace. -/
def pyStrip (s : String) : String :=
  ⟨((s.data.dropWhile pyIsSpace).reverse.dropWhile pyIsSpace).reverse⟩

/-- Python dict `get(key, default)` over an association list (first match wins,
matching insertion-ordered dict literals whose keys are distinct). -/
def dictGet (d : List (String × String)) (k : String) (dflt : String) : String :=
  match d.find? (fun p => p.1 == k) with
  | some p => p.2
  | none => dflt

/-- `STYLE_HINTS` dict (app.py 87-94). -/
def STYLE_HINTS : List (String × String) :=
  [("Cinematic", "cinematic lighting, shallow depth of field, filmic color grading, dramatic composition"),
   ("Concept Art", "highly detailed concept art, artstation quality, mood painting, volumetric light"),
   ("Poster Graphic", "bold poster design, vector-like clarity, balanced negative space, strong typography placeholders"),
   ("Watercolor", "soft watercolor texture, natural paper grain, gentle bleeding edges"),
   ("3D Render", "physically-based rendering, soft studio lighting, subsurface scattering"),
   ("Anime", "clean line art, cel shading, expressive character styling")]

/-- The role-instruction dict literal inside `style_prompt` (app.py 98-105). -/
def role_instructions : List (String × String) :=
  [("Video Director", "Compose shots like a storyboard frame; emphasize emotion, blocking, and lighting motivation."),
   ("Fashion Consultant", "Focus on outfit silhouette, fabric texture, and color harmony; editorial styling."),
   ("Dance Coach", "Capture dynamic body lines, rhythm, and motion arcs; sense of stage lighting."),
   ("Performing Arts Critic", "Emphasize atmosphere, dramaturgy, and audience perspective."),
   ("Graphic Designer", "Prioritize layout balance, iconic shapes, and color contrast; print-friendly."),
   ("Storyboard Artist", "Clear framing, character poses, arrows for motion; readable beat.")]

/-- `SIZES` dict (app.py 80-85). -/
def SIZES : List (String × String) :=
  [("Square (1024x1024)", "1024x1024"),
   ("Landscape (1344x768)", "1344x768"),
   ("Portrait (768x1344)", "768x1344"),
   ("Large Square (2048x2048)", "2048x2048")]

/-- Python `", ".join(parts)`. -/
def join_sep (sep : String) : List String → String
  | [] => ""
  | [p] => p
  | p :: q :: rest => p ++ sep ++ join_sep sep (q :: rest)

/-- `style_prompt(role_name, base, style_key)` (app.py 96-111): start from the
base clause, append the style hint and the role instruction when non-empty, and
join the non-empty clauses with a comma-space. -/
def style_prompt (role_name : String) (base : String) (style_key : String) : String :=
  let style := dictGet STYLE_HINTS style_key ""
  let instr := dictGet role_instructions role_name ""
  let parts := [base] ++ (if style != "" then [style] else []) ++
    (if instr != "" then [instr] else [])
  join_sep ", " (parts.filter (fun p => p != ""))

/-- The final prompt assembled in the generate handler (app.py 193-195):
`style_prompt(role, base_prompt.strip(), style)` plus, when the trimmed
negative prompt is non-empty, the concatenated suffix `. Avoid: {neg}.`. -/
def final_prompt (role base_prompt style negative_prompt : String) : String :=
  let fp := style_prompt role (pyStrip base_prompt) style
  if pyStrip negative_prompt != "" then
    fp ++ ". Avoid: " ++ pyStrip negative_prompt ++ "."
  else
    fp

/-- `GenParams` dataclass (app.py 57-66). Timestamps and counts are naturals;
the seed is an optional integer as in the source. -/
structure GenParams where
  prompt : String
  negative_prompt : String
  style : String
  size : String
  n_images : Nat
  seed : Option Int
  bg_transparent : Bool
  quality : String
deriving DecidableEq, Repr

/-- `GenResult` dataclass (app.py 68-72): timestamp, parameters, and the
base64-encoded image payloads kept as opaque strings. -/
structure GenResult where
  timestamp : Nat
  params : GenParams
  images_b64 : List String
deriving DecidableEq, Repr

/-- `st.session_state.history.insert(0, r)` (app.py 222): insertion at the head. -/
def insertAtHead (r : GenResult) (h : List GenResult) : List GenResult := r :: h

/-- `latest` accessor: `st.session_state.history[0]` guarded by a non-emptiness
check (app.py 228-229), i.e. the head of the list when present. -/
def latest (h : List GenResult) : Option GenResult := h.head?

/-- Repeated head insertion, earliest request first in the input list. -/
def insertAll (rs : List GenResult) (h : List GenResult) : List GenResult :=
  rs.foldl (fun acc r => insertAtHead r acc) h

/-- Does a list of characters continue a Python integer literal after its first
digit: digits, with single underscores allowed only between digits. -/
def pyIntDigitsRest : List Char → Bool
  | [] => true
  | '_' :: [] => false
  | '_' :: d :: rest => d.isDigit && pyIntDigitsRest rest
  | c :: rest => c.isDigit && pyIntDigitsRest rest

/-- Numeric value of the digit characters, skipping grouping underscores. -/
def pyDigitsVal (cs : List Char) : Nat :=
  cs.foldl (fun a c => if c.isDigit then a * 10 + (c.toNat - 48) else a) 0

/-- Python `int(s)` on an already-stripped string: optional sign followed by
digits (with underscore grouping); `none` models the `ValueError` branch. -/
def pyParseInt (s : String) : Option Int :=
  let signAndDigits : Int × List Char :=
    match s.data with
    | '+' :: rest => (1, rest)
    | '-' :: rest => (-1, rest)
    | cs => (1, cs)
  match signAndDigits.2 with
  | [] => none
  | c :: rest =>
      if c.isDigit && pyIntDigitsRest rest then
        some (signAndDigits.1 * (pyDigitsVal (c :: rest) : Int))
      else
        none

/-- The widget inputs of one submit of the Image Studio form (app.py 155-171). -/
structure SubmitInputs where
  api_key : String
  role : String
  base_prompt : String
  negative_prompt : String
  style : String
  size_label : String
  n_images : Nat
  seed_opt : String
  bg_transparent : Bool
  quality : String
deriving DecidableEq, Repr

/-- The environment of one submit: whether `OpenAI(api_key=...)` construction
succeeds (app.py 46-52), the outcome of the `client.images.generate` call
(app.py 201-209; `Except.error` is the raised exception's message), and the
value of `time.time()` at insertion. -/
structure GenOracle where
  clientOk : Bool
  genReply : Except String (List String)
  now : Nat
deriving Repr

/-- The arguments of one `client.images.generate(...)` call (app.py 201-209). -/
structure ImagesGenerateCall where
  model : String
  prompt : String
  size : String
  n : Nat
  background : String
  quality : String
  seed : Option Int
deriving DecidableEq, Repr

/-- The user-visible outcome of one submit: the three `st.error` guards
(app.py 184-191), the `st.exception(e)` branch carrying the failure cause
(app.py 224-225), and the success path (app.py 223). -/
inductive SubmitOutcome where
  | errNoKey
  | errEmptyPrompt
  | errBadClient
  | genFailed (cause : String)
  | ok
deriving DecidableEq, Repr

/-- Everything observable about one submit: outcome, resulting history, the
external calls made (in order), and whether the invalid-seed warning
(app.py 177) was shown. -/
structure SubmitResult where
  outcome : SubmitOutcome
  history : List GenResult
  calls : List ImagesGenerateCall
  seedWarning : Bool
deriving DecidableEq, Repr

/-- One run of the generate handler (app.py 172-225) on the current history:
parse the optional seed with a warning-and-ignore fallback, check the
key/prompt/client guards, build the final prompt, perform the single
`images.generate` call, and on success insert one `GenResult` at the head of
the history; on exception leave the history untouched. -/
def submit (inp : SubmitInputs) (o : GenOracle) (history : List GenResult) : SubmitResult :=
  let seedStr := pyStrip inp.seed_opt
  let seedParsed := pyParseInt seedStr
  let seedWarning := seedStr != "" && seedParsed.isNone
  let seed_val : Option Int := if seedStr != "" then seedParsed else none
  if inp.api_key == "" then
    ⟨.errNoKey, history, [], seedWarning⟩
  else if pyStrip inp.base_prompt == "" then
    ⟨.errEmptyPrompt, history, [], seedWarning⟩
  else if !o.clientOk then
    ⟨.errBadClient, history, [], seedWarning⟩
  else
    let fp := final_prompt inp.role inp.base_prompt inp.style inp.negative_prompt
    let call : ImagesGenerateCall :=
      { model := "gpt-image-1"
        prompt := fp
        size := dictGet SIZES inp.size_label ""
        n := inp.n_images
        background := if inp.bg_transparent then "transparent" else "white"
        quality := inp.quality
        seed := seed_val }
    match o.genReply with
    | .error cause => ⟨.genFailed cause, history, [call], seedWarning⟩
    | .ok images_b64 =>
        let params : GenParams :=
          { prompt := pyStrip inp.base_prompt
            negative_prompt := pyStrip inp.negative_prompt
            style := inp.style
            size := dictGet SIZES inp.size_label ""
            n_images := inp.n_images
            seed := seed_val
            bg_transparent := inp.bg_transparent
            quality := inp.quality }
        ⟨.ok, insertAtHead ⟨o.now, params, images_b64⟩ history, [call], seedWarning⟩

/-- The `select_slider` options for quality (app.py 171). -/
def qualityOptions : List String := ["standard", "hd"]

/-- The abstract quality enum of the data model; its literal string encoding
sent on the wire maps standard to "standard" and high to "hd". -/
inductive Quality where
  | standard
  | high
deriving DecidableEq, Repr

/-- String encoding of a `Quality` value. -/
def Quality.encode : Quality → String
  | .standard => "standard"
  | .high => "hd"

/-! ## Helper lemmas -/

theorem bne_true_of_ne {a b : String} (h : a ≠ b) : (a != b) = true :=
  bne_iff_ne.mpr h

theorem join_sep_cons_append (sep a : String) (l : List String) :
    ∃ r, join_sep sep (a :: l) = a ++ r := by
  cases l with
  | nil => exact ⟨"", by simp [join_sep]⟩
  | cons q t =>
      exact ⟨sep ++ join_sep sep (q :: t), by simp [join_sep, String.append_assoc]⟩

theorem dictGet_eq_default (d : List (String × String)) (k : String)
    (hk : k ∉ d.map Prod.fst) : dictGet d k "" = "" := by
  unfold dictGet
  have hfind : d.find? (fun p => p.1 == k) = none := by
    rw [List.find?_eq_none]
    intro p hp hpk
    exact hk (List.mem_map.mpr ⟨p, hp, beq_iff_eq.mp hpk⟩)
  rw [hfind]

theorem style_prompt_base_first (role base k : String) (hb : base ≠ "") :
    ∃ r, style_prompt role base k = base ++ r := by
  have hb' : (base != "") = true := bne_true_of_ne hb
  simp only [style_prompt, List.cons_append, List.nil_append, List.filter_cons, hb',
    if_true]
  exact join_sep_cons_append ", " base _

theorem insertAll_eq_reverse_append (rs h : List GenResult) :
    insertAll rs h = rs.reverse ++ h := by
  induction rs generalizing h with
  | nil => rfl
  | cons r t ih =>
      show insertAll t (insertAtHead r h) = (r :: t).reverse ++ h
      rw [ih]
      simp [insertAtHead]

/-! ## Claim theorems -/

/-- C1: composing the base text "sunset over mountains" with the Cinematic
style and the Storyboard Artist role, with empty negative text, yields exactly
the base clause, the Cinematic hint and the role instruction, in that order,
joined by the comma-space separator. -/
theorem C1_cinematic_storyboard_exact :
    final_prompt "Storyboard Artist" "sunset over mountains" "Cinematic" "" =
      "sunset over mountains" ++ ", " ++ dictGet STYLE_HINTS "Cinematic" "" ++ ", " ++
        dictGet role_instructions "Storyboard Artist" "" ∧
    final_prompt "Storyboard Artist" "sunset over mountains" "Cinematic" "" =
      "sunset over mountains, cinematic lighting, shallow depth of field, filmic color grading, dramatic composition, Clear framing, character poses, arrows for motion; readable beat." := by
  exact ⟨by rfl, by rfl⟩

/-- C2: after any sequence of head insertions into the empty history, the full
history is exactly the insertion order reversed (newest first); the latest
accessor yields the first element when the history is non-empty, and none
when it is empty. -/
theorem C2_history_newest_first (rs : List GenResult) :
    insertAll rs [] = rs.reverse ∧
    (∀ r t, insertAll rs [] = r :: t → latest (insertAll rs []) = some r) ∧
    (insertAll rs [] = [] → latest (insertAll rs []) = none) := by
  refine ⟨by rw [insertAll_eq_reverse_append]; simp, ?_, ?_⟩
  · intro r t ht
    rw [ht]
    rfl
  · intro ht
    rw [ht]
    rfl

/-- C10: inserting one result at the head of the history is a pure frame
extension: the length grows by one, and every previously stored entry is
unchanged in value and relative position (the tail of the new history is the
old history). -/
theorem C10_insert_frame (r : GenResult) (h : List GenResult) :
    (insertAtHead r h).length = h.length + 1 ∧
    List.tail (insertAtHead r h) = h ∧
    ∀ i : Nat, (insertAtHead r h)[i + 1]? = h[i]? := by
  refine ⟨rfl, rfl, ?_⟩
  intro i
  simp [insertAtHead]

/-- C4: for every base text that is non-empty after trimming, and any role,
style key and negative text, the composed final prompt starts with the trimmed
base text; every other clause is appended after it. -/
theorem C4_output_starts_with_base (role bp k neg : String) (hb : pyStrip bp ≠ "") :
    ∃ rest, final_prompt role bp k neg = pyStrip bp ++ rest := by
  obtain ⟨r, hr⟩ := style_prompt_base_first role (pyStrip bp) k hb
  simp only [final_prompt]
  split
  · exact ⟨r ++ (". Avoid: " ++ pyStrip neg ++ "."), by rw [hr]; simp [String.append_assoc]⟩
  · exact ⟨r, hr⟩

/-- Witness for C4 at a concrete input. -/
theorem C4_output_starts_with_base_witness :
    pyStrip " hi " ≠ "" ∧
    ∃ rest, final_prompt "Video Director" " hi " "Cinematic" "" = pyStrip " hi " ++ rest :=
  ⟨by decide, C4_output_starts_with_base "Video Director" " hi " "Cinematic" "" (by decide)⟩

/-- C5: when the trimmed negative text is non-empty, the final prompt is the
comma-joined clause string with the text ". Avoid: {trimmed negative}."
concatenated at its end (not joined by the comma-space separator); when the
trimmed negative text is empty, nothing is appended. -/
theorem C5_negative_suffix (role bp k neg : String) :
    (pyStrip neg ≠ "" →
      final_prompt role bp k neg =
        style_prompt role (pyStrip bp) k ++ ". Avoid: " ++ pyStrip neg ++ ".") ∧
    (pyStrip neg = "" → final_prompt role bp k neg = style_prompt role (pyStrip bp) k) := by
  constructor
  · intro hn
    simp [final_prompt, bne_true_of_ne hn]
  · intro hn
    simp [final_prompt, hn]

/-- Witness for C5 at a concrete input. -/
theorem C5_negative_suffix_witness :
    final_prompt "Video Director" "a cat" "Anime" " blurry " =
      style_prompt "Video Director" (pyStrip "a cat") "Anime" ++ ". Avoid: " ++
        pyStrip " blurry " ++ "." :=
  (C5_negative_suffix "Video Director" "a cat" "Anime" " blurry ").1 (by decide)

/-- C6: a style key outside the style table and a role name outside the role
table contribute no clause and cause no failure: the composer's output equals
the output for the empty (absent) key, which depends only on the remaining
inputs. -/
theorem C6_unknown_keys_no_clause (k r : String)
    (hk : k ∉ STYLE_HINTS.map Prod.fst) (hr : r ∉ role_instructions.map Prod.fst) :
    (∀ role base, style_prompt role base k = style_prompt role base "") ∧
    (∀ base sk, style_prompt r base sk = style_prompt "" base sk) ∧
    (∀ bp neg, final_prompt r bp k neg = final_prompt "" bp "" neg) := by
  have hk0 : dictGet STYLE_HINTS k "" = "" := dictGet_eq_default _ _ hk
  have hr0 : dictGet role_instructions r "" = "" := dictGet_eq_default _ _ hr
  have hke : dictGet STYLE_HINTS "" "" = "" := by rfl
  have hre : dictGet role_instructions "" "" = "" := by rfl
  refine ⟨?_, ?_, ?_⟩
  · intro role base
    simp [style_prompt, hk0, hke]
  · intro base sk
    simp [style_prompt, hr0, hre]
  · intro bp neg
    simp [final_prompt, style_prompt, hk0, hke, hr0, hre]

/-- Witness for C6 at a concrete input. -/
theorem C6_unknown_keys_no_clause_witness :
    ("Neon" ∉ STYLE_HINTS.map Prod.fst) ∧
    ("Plumber" ∉ role_instructions.map Prod.fst) ∧
    style_prompt "Video Director" "a cat" "Neon" = style_prompt "Video Director" "a cat" "" :=
  ⟨by decide, by decide,
    (C6_unknown_keys_no_clause "Neon" "Plumber" (by decide) (by decide)).1 "Video Director" "a cat"⟩

theorem beq_false_of_ne {a b : String} (h : a ≠ b) : (a == b) = false := by
  cases hab : a == b with
  | false => rfl
  | true => exact absurd (beq_iff_eq.mp hab) h

theorem submit_eval_noKey (inp : SubmitInputs) (o : GenOracle) (h : List GenResult)
    (hk : (inp.api_key == "") = true) :
    submit inp o h = ⟨SubmitOutcome.errNoKey, h, [],
      ((pyStrip inp.seed_opt != "") && (pyParseInt (pyStrip inp.seed_opt)).isNone)⟩ := by
  simp [submit, hk]

theorem submit_eval_emptyPrompt (inp : SubmitInputs) (o : GenOracle) (h : List GenResult)
    (hk : (inp.api_key == "") = false) (hb : (pyStrip inp.base_prompt == "") = true) :
    submit inp o h = ⟨SubmitOutcome.errEmptyPrompt, h, [],
      ((pyStrip inp.seed_opt != "") && (pyParseInt (pyStrip inp.seed_opt)).isNone)⟩ := by
  simp [submit, hk, hb]

theorem submit_eval_badClient (inp : SubmitInputs) (o : GenOracle) (h : List GenResult)
    (hk : (inp.api_key == "") = false) (hb : (pyStrip inp.base_prompt == "") = false)
    (hc : o.clientOk = false) :
    submit inp o h = ⟨SubmitOutcome.errBadClient, h, [],
      ((pyStrip inp.seed_opt != "") && (pyParseInt (pyStrip inp.seed_opt)).isNone)⟩ := by
  simp [submit, hk, hb, hc]

theorem submit_eval_genError (inp : SubmitInputs) (o : GenOracle) (h : List GenResult)
    (cause : String)
    (hk : (inp.api_key == "") = false) (hb : (pyStrip inp.base_prompt == "") = false)
    (hc : o.clientOk = true) (hg : o.genReply = Except.error cause) :
    submit inp o h = ⟨SubmitOutcome.genFailed cause, h,
      [⟨"gpt-image-1", final_prompt inp.role inp.base_prompt inp.style inp.negative_prompt,
        dictGet SIZES inp.size_label "", inp.n_images,
        (if inp.bg_transparent then "transparent" else "white"), inp.quality,
        (if (pyStrip inp.seed_opt != "") then pyParseInt (pyStrip inp.seed_opt) else none)⟩],
      ((pyStrip inp.seed_opt != "") && (pyParseInt (pyStrip inp.seed_opt)).isNone)⟩ := by
  simp [submit, hk, hb, hc, hg]

theorem submit_eval_ok (inp : SubmitInputs) (o : GenOracle) (h : List GenResult)
    (imgs : List String)
    (hk : (inp.api_key == "") = false) (hb : (pyStrip inp.base_prompt == "") = false)
    (hc : o.clientOk = true) (hg : o.genReply = Except.ok imgs) :
    submit inp o h = ⟨SubmitOutcome.ok,
      ⟨o.now,
       ⟨pyStrip inp.base_prompt, pyStrip inp.negative_prompt, inp.style,
        dictGet SIZES inp.size_label "", inp.n_images,
        (if (pyStrip inp.seed_opt != "") then pyParseInt (pyStrip inp.seed_opt) else none),
        inp.bg_transparent, inp.quality⟩, imgs⟩ :: h,
      [⟨"gpt-image-1", final_prompt inp.role inp.base_prompt inp.style inp.negative_prompt,
        dictGet SIZES inp.size_label "", inp.n_images,
        (if inp.bg_transparent then "transparent" else "white"), inp.quality,
        (if (pyStrip inp.seed_opt != "") then pyParseInt (pyStrip inp.seed_opt) else none)⟩],
      ((pyStrip inp.seed_opt != "") && (pyParseInt (pyStrip inp.seed_opt)).isNone)⟩ := by
  simp [submit, insertAtHead, hk, hb, hc, hg]

/-- C3: when the key and prompt guards pass and the external generation call
raises, the submit leaves the history untouched, surfaces the failure cause to
the user, and performs exactly one external call (no retry). -/
theorem C3_generation_failure_leaves_history (inp : SubmitInputs) (o : GenOracle)
    (h : List GenResult) (cause : String)
    (hkey : inp.api_key ≠ "") (hbase : pyStrip inp.base_prompt ≠ "")
    (hclient : o.clientOk = true) (hfail : o.genReply = Except.error cause) :
    (submit inp o h).history = h ∧
    (submit inp o h).outcome = SubmitOutcome.genFailed cause ∧
    (submit inp o h).calls.length = 1 := by
  rw [submit_eval_genError inp o h cause (beq_false_of_ne hkey) (beq_false_of_ne hbase)
    hclient hfail]
  exact ⟨rfl, rfl, rfl⟩

/-- Witness for C3 at a concrete input. -/
theorem C3_generation_failure_leaves_history_witness :
    (submit ⟨"k", "Video Director", "a cat", "", "Cinematic", "Square (1024x1024)", 4, "",
        false, "standard"⟩ ⟨true, Except.error "network down", 0⟩ []).history = [] ∧
    (submit ⟨"k", "Video Director", "a cat", "", "Cinematic", "Square (1024x1024)", 4, "",
        false, "standard"⟩ ⟨true, Except.error "network down", 0⟩ []).outcome =
      SubmitOutcome.genFailed "network down" ∧
    (submit ⟨"k", "Video Director", "a cat", "", "Cinematic", "Square (1024x1024)", 4, "",
        false, "standard"⟩ ⟨true, Except.error "network down", 0⟩ []).calls.length = 1 :=
  C3_generation_failure_leaves_history _ _ [] "network down" (by decide) (by decide) rfl rfl

/-- C7: when the prompt is empty after trimming, the submit makes no external
call, surfaces a validation error (the key guard fires first when the key is
also missing), and leaves the history unchanged. -/
theorem C7_empty_prompt_no_call (inp : SubmitInputs) (o : GenOracle) (h : List GenResult)
    (hp : pyStrip inp.base_prompt = "") :
    (submit inp o h).calls = [] ∧
    (submit inp o h).history = h ∧
    ((submit inp o h).outcome = SubmitOutcome.errNoKey ∨
      (submit inp o h).outcome = SubmitOutcome.errEmptyPrompt) := by
  cases hk : inp.api_key == "" with
  | true =>
      rw [submit_eval_noKey inp o h hk]
      exact ⟨rfl, rfl, Or.inl rfl⟩
  | false =>
      rw [submit_eval_emptyPrompt inp o h hk (beq_iff_eq.mpr hp)]
      exact ⟨rfl, rfl, Or.inr rfl⟩

/-- Witness for C7 at a concrete input. -/
theorem C7_empty_prompt_no_call_witness :
    pyStrip "   " = "" ∧
    ((submit ⟨"k", "Video Director", "   ", "", "Cinematic", "Square (1024x1024)", 4, "",
        false, "standard"⟩ ⟨true, Except.ok ["p"], 0⟩ []).calls = [] ∧
     (submit ⟨"k", "Video Director", "   ", "", "Cinematic", "Square (1024x1024)", 4, "",
        false, "standard"⟩ ⟨true, Except.ok ["p"], 0⟩ []).history = [] ∧
     ((submit ⟨"k", "Video Director", "   ", "", "Cinematic", "Square (1024x1024)", 4, "",
        false, "standard"⟩ ⟨true, Except.ok ["p"], 0⟩ []).outcome = SubmitOutcome.errNoKey ∨
      (submit ⟨"k", "Video Director", "   ", "", "Cinematic", "Square (1024x1024)", 4, "",
        false, "standard"⟩ ⟨true, Except.ok ["p"], 0⟩ []).outcome =
        SubmitOutcome.errEmptyPrompt)) :=
  ⟨by decide, C7_empty_prompt_no_call _ _ [] (by decide)⟩

/-- C8 counterexample: a submit with the unparseable seed text "abc" but a
valid key, prompt and a successful generation does mutate the history store
(one entry is inserted), so "no state mutation occurs" fails as stated. -/
theorem C8_invalid_seed_counterexample :
    pyStrip "abc" ≠ "" ∧ pyParseInt (pyStrip "abc") = none ∧
    (submit ⟨"k", "Video Director", "a cat", "", "Cinematic", "Square (1024x1024)", 4, "abc",
        false, "standard"⟩ ⟨true, Except.ok ["payload"], 0⟩ []).history ≠ [] := by
  refine ⟨by decide, by rfl, ?_⟩
  decide

/-- C8 amended: a non-empty seed text that does not parse as an integer is
recovered locally with a user-visible warning and the seed falls back to none
(provider randomizes); the seed failure itself mutates nothing — the history
is unchanged unless the submit's generation succeeds, in which case exactly
one entry with seed none is inserted at the head. -/
theorem C8_invalid_seed_recovery (inp : SubmitInputs) (o : GenOracle) (h : List GenResult)
    (hs : pyStrip inp.seed_opt ≠ "") (hbad : pyParseInt (pyStrip inp.seed_opt) = none) :
    (submit inp o h).seedWarning = true ∧
    ((submit inp o h).history = h ∨
      ∃ g, (submit inp o h).history = g :: h ∧ g.params.seed = none) ∧
    ((submit inp o h).outcome ≠ SubmitOutcome.ok → (submit inp o h).history = h) := by
  have hs' : (pyStrip inp.seed_opt != "") = true := bne_true_of_ne hs
  have hw : ((pyStrip inp.seed_opt != "") && (pyParseInt (pyStrip inp.seed_opt)).isNone) = true := by
    rw [hs', hbad]
    rfl
  have hval : (if (pyStrip inp.seed_opt != "") then pyParseInt (pyStrip inp.seed_opt) else none)
      = none := by
    rw [hs']
    simpa using hbad
  cases hk : inp.api_key == "" with
  | true =>
      rw [submit_eval_noKey inp o h hk]
      exact ⟨hw, Or.inl rfl, fun _ => rfl⟩
  | false =>
      cases hb : pyStrip inp.base_prompt == "" with
      | true =>
          rw [submit_eval_emptyPrompt inp o h hk hb]
          exact ⟨hw, Or.inl rfl, fun _ => rfl⟩
      | false =>
          cases hc : o.clientOk with
          | false =>
              rw [submit_eval_badClient inp o h hk hb hc]
              exact ⟨hw, Or.inl rfl, fun _ => rfl⟩
          | true =>
              cases hg : o.genReply with
              | error cause =>
                  rw [submit_eval_genError inp o h cause hk hb hc hg]
                  exact ⟨hw, Or.inl rfl, fun _ => rfl⟩
              | ok imgs =>
                  rw [submit_eval_ok inp o h imgs hk hb hc hg]
                  exact ⟨hw, Or.inr ⟨_, rfl, hval⟩, fun hno => absurd rfl hno⟩

/-- Witness for the amended C8 at a concrete input. -/
theorem C8_invalid_seed_recovery_witness :
    pyStrip " 12x " ≠ "" ∧ pyParseInt (pyStrip " 12x ") = none ∧
    ((submit ⟨"k", "Video Director", "a cat", "", "Cinematic", "Square (1024x1024)", 4, " 12x ",
        false, "standard"⟩ ⟨true, Except.ok ["p"], 0⟩ []).seedWarning = true ∧
     ((submit ⟨"k", "Video Director", "a cat", "", "Cinematic", "Square (1024x1024)", 4, " 12x ",
        false, "standard"⟩ ⟨true, Except.ok ["p"], 0⟩ []).history = [] ∨
      ∃ g, (submit ⟨"k", "Video Director", "a cat", "", "Cinematic", "Square (1024x1024)", 4,
        " 12x ", false, "standard"⟩ ⟨true, Except.ok ["p"], 0⟩ []).history = g :: [] ∧
        g.params.seed = none) ∧
     ((submit ⟨"k", "Video Director", "a cat", "", "Cinematic", "Square (1024x1024)", 4, " 12x ",
        false, "standard"⟩ ⟨true, Except.ok ["p"], 0⟩ []).outcome ≠ SubmitOutcome.ok →
      (submit ⟨"k", "Video Director", "a cat", "", "Cinematic", "Square (1024x1024)", 4, " 12x ",
        false, "standard"⟩ ⟨true, Except.ok ["p"], 0⟩ []).history = [])) :=
  ⟨by decide, by rfl, C8_invalid_seed_recovery _ _ [] (by decide) (by rfl)⟩

/-- C9: under the quality widget's constraint, the chosen quality is the
string encoding of one of the two abstract quality values (standard, high),
and both the quality argument of every external call and the quality stored
in every new history entry stay in that two-element set. -/
theorem C9_quality_enum (inp : SubmitInputs) (o : GenOracle) (h : List GenResult)
    (hq : inp.quality ∈ qualityOptions) :
    (∃ q : Quality, Quality.encode q = inp.quality) ∧
    (∀ c ∈ (submit inp o h).calls, c.quality ∈ qualityOptions) ∧
    (∀ g ∈ (submit inp o h).history, g ∈ h ∨ g.params.quality ∈ qualityOptions) := by
  have henc : ∃ q : Quality, Quality.encode q = inp.quality := by
    rcases List.mem_cons.mp hq with h1 | h1
    · exact ⟨Quality.standard, h1.symm⟩
    · exact ⟨Quality.high, (List.mem_singleton.mp h1).symm⟩
  refine ⟨henc, ?_⟩
  cases hk : inp.api_key == "" with
  | true =>
      rw [submit_eval_noKey inp o h hk]
      exact ⟨fun c hc => absurd hc (List.not_mem_nil c), fun g hg => Or.inl hg⟩
  | false =>
      cases hb : pyStrip inp.base_prompt == "" with
      | true =>
          rw [submit_eval_emptyPrompt inp o h hk hb]
          exact ⟨fun c hc => absurd hc (List.not_mem_nil c), fun g hg => Or.inl hg⟩
      | false =>
          cases hc : o.clientOk with
          | false =>
              rw [submit_eval_badClient inp o h hk hb hc]
              exact ⟨fun c hc => absurd hc (List.not_mem_nil c), fun g hg => Or.inl hg⟩
          | true =>
              cases hg : o.genReply with
              | error cause =>
                  rw [submit_eval_genError inp o h cause hk hb hc hg]
                  refine ⟨?_, fun g hg => Or.inl hg⟩
                  intro c hcm
                  rw [List.mem_singleton.mp hcm]
                  exact hq
              | ok imgs =>
                  rw [submit_eval_ok inp o h imgs hk hb hc hg]
                  constructor
                  · intro c hcm
                    rw [List.mem_singleton.mp hcm]
                    exact hq
                  · intro g hgm
                    rcases List.mem_cons.mp hgm with h1 | h1
                    · rw [h1]
                      exact Or.inr hq
                    · exact Or.inl h1

/-- Witness for C9 at a concrete input. -/
theorem C9_quality_enum_witness :
    ("hd" : String) ∈ qualityOptions ∧
    ((∃ q : Quality, Quality.encode q = "hd") ∧
     (∀ c ∈ (submit (⟨"k", "Video Director", "a cat", "", "Cinematic", "Square (1024x1024)", 4,
        "", false, "hd"⟩ : SubmitInputs) (⟨true, Except.ok ["p"], 0⟩ : GenOracle) []).calls,
        c.quality ∈ qualityOptions) ∧
     (∀ g ∈ (submit (⟨"k", "Video Director", "a cat", "", "Cinematic", "Square (1024x1024)", 4,
        "", false, "hd"⟩ : SubmitInputs) (⟨true, Except.ok ["p"], 0⟩ : GenOracle) []).history,
        g ∈ ([] : List GenResult) ∨ g.params.quality ∈ qualityOptions)) :=
  ⟨by decide,
    C9_quality_enum
      (⟨"k", "Video Director", "a cat", "", "Cinematic", "Square (1024x1024)", 4, "", false,
        "hd"⟩ : SubmitInputs)
      (⟨true, Except.ok ["p"], 0⟩ : GenOracle) [] (by decide)⟩

end RoleChat
